import Mathlib

/-!
# Formal model of the PF-F.R.A polygon measurement module

Shallow embedding of the geometry-math, measurement-cache and
coordinate-sanity-checker subsystems of the repository (sources:
`src/map-script.js`, `src/unnamed/part_000`, `src/unnamed/part_001`).

Two scalar models are used:

* the coordinate sanity checker (`src/unnamed/part_000` lines 2059-2601) is
  modelled over `ℚ`, with the transcendental operations the JavaScript code
  takes from `Math` (`sin`, `cos`, `sqrt`, `atan2`, the constant `Math.PI`)
  abstracted into an explicit `TrigOps` record, so that every definition is
  computable and concrete runs are decidable; every claim about the checker
  is a control-flow/structural property that holds for all such operation
  records;
* the geometry math (`calculatePolygonArea`, `calculatePolygonPerimeter`,
  `calculateBoundingBox`, `calculateAspectRatio`) is modelled over `ℝ` with
  Mathlib's exact `Real.sin`/`Real.cos`/`Real.arctan`/`Real.sqrt`/`Real.pi`,
  the usual exact-real idealisation of JavaScript float arithmetic.
-/

namespace Checker

/-- A coordinate pair as the JavaScript stores it: `coord[0]` (named `lat`
once plausible) is the first component, `coord[1]` (`lng`) the second. -/
abbrev Coord := ℚ × ℚ

/-- The `Math` operations the checker uses, abstracted: the JavaScript values
are IEEE doubles which no exact scalar reproduces, so the model is
parametrised by them.  `pi` stands for `Math.PI`. -/
structure TrigOps where
  sin : ℚ → ℚ
  cos : ℚ → ℚ
  sqrt : ℚ → ℚ
  atan2 : ℚ → ℚ → ℚ
  pi : ℚ

/-- The notifications (`showNotification` calls) the checker can emit,
in the model the observable "method tag" of a result
(`src/unnamed/part_000` lines 2080, 2093, 2101, 2109, 2117, 2121, 2132,
2140, 2154). -/
inductive Notif where
  | swapCorrected
  | scalingSuccess
  | utmSuccess
  | minnaSuccess
  | genericSuccess
  | projectionError
  | coordRange
  | differentSystemWarning
  | farFromView
deriving DecidableEq, Repr

/-- `tryScalingTransform` (`src/unnamed/part_000` lines 2225-2240): divide
both axes by each scale in descending order, accept the first scale whose
first scaled vertex is in WGS84 range. -/
def tryScalingTransform (coordinates : List Coord) : Option (List Coord) :=
  [(10000000 : ℚ), 1000000, 100000, 10000, 1000, 100, 10].findSome? fun scale =>
    let scaled := coordinates.map fun c => (c.1 / scale, c.2 / scale)
    match scaled.head? with
    | none => none
    | some f => if |f.1| ≤ 90 ∧ |f.2| ≤ 180 then some scaled else none

/-- `trySwapTransform` (`src/unnamed/part_000` lines 2243-2251). -/
def trySwapTransform (coordinates : List Coord) : Option (List Coord) :=
  let swapped := coordinates.map fun c => (c.2, c.1)
  match swapped.head? with
  | none => none
  | some f => if |f.1| ≤ 90 ∧ |f.2| ≤ 180 then some swapped else none

/-- `tryOffsetTransform` (`src/unnamed/part_000` lines 2254-2269). -/
def tryOffsetTransform (coordinates : List Coord) : Option (List Coord) :=
  [(10000000 : ℚ), 1000000, 100000, 10000, 1000].findSome? fun offset =>
    let shifted := coordinates.map fun c => (c.1 - offset, c.2 - offset)
    match shifted.head? with
    | none => none
    | some f => if |f.1| ≤ 90 ∧ |f.2| ≤ 180 then some shifted else none

/-- `tryMixedTransform` (`src/unnamed/part_000` lines 2272-2290): scale then
swap the axes. -/
def tryMixedTransform (coordinates : List Coord) : Option (List Coord) :=
  [(1000000 : ℚ), 100000, 10000, 1000].findSome? fun scale =>
    let swappedScaled := coordinates.map fun c => (c.2 / scale, c.1 / scale)
    match swappedScaled.head? with
    | none => none
    | some f => if |f.1| ≤ 90 ∧ |f.2| ≤ 180 then some swappedScaled else none

/-- `trySimpleScaling` (`src/unnamed/part_000` lines 2162-2200): run the four
elementary transforms in source order, returning the first success.  The
`analyzeCoordinateSystem` call of the source only logs and is dropped. -/
def trySimpleScaling (coordinates : List Coord) : Option (List Coord) :=
  (tryScalingTransform coordinates).orElse fun _ =>
    (trySwapTransform coordinates).orElse fun _ =>
      (tryOffsetTransform coordinates).orElse fun _ =>
        tryMixedTransform coordinates

/-- One point of `convertUTMToWGS84` (`src/unnamed/part_000` lines
2335-2364): inverse Transverse Mercator on the WGS84 ellipsoid.  Note the
source adds `centralMeridian` (degrees) to the `atan2` result (radians)
before converting with `180 / Math.PI`; the model reproduces this as is. -/
def convertUTMPoint (ops : TrigOps) (centralMeridian : ℚ) (c : Coord) : Coord :=
  let falseEasting : ℚ := 500000
  let falseNorthing : ℚ := 0
  let scaleFactor : ℚ := 0.9996
  let a : ℚ := 6378137
  let e2 : ℚ := 0.00669438
  let x := c.1 - falseEasting
  let y := c.2 - falseNorthing
  let mu := y / (a * scaleFactor * (1 - e2 / 4 - 3 * e2 * e2 / 64 - 5 * e2 * e2 * e2 / 256))
  let e1 := (1 - ops.sqrt (1 - e2)) / (1 + ops.sqrt (1 - e2))
  let lat1 := mu + (3 * e1 / 2 - 27 * e1 * e1 * e1 / 32) * ops.sin (2 * mu) +
      (21 * e1 * e1 / 16 - 55 * e1 * e1 * e1 * e1 / 32) * ops.sin (4 * mu) +
      (151 * e1 * e1 * e1 / 96) * ops.sin (6 * mu)
  let lng := centralMeridian +
      ops.atan2 x (a * scaleFactor * (1 - e2 * ops.sin lat1 * ops.sin lat1) * ops.cos lat1)
  (lat1 * 180 / ops.pi, lng * 180 / ops.pi)

/-- `convertUTMToWGS84` (`src/unnamed/part_000` lines 2333-2378): convert
every point, accept when the first converted vertex is in WGS84 range. -/
def convertUTMToWGS84 (ops : TrigOps) (coordinates : List Coord)
    (_zone : ℤ) (centralMeridian : ℚ) : Option (List Coord) :=
  let converted := coordinates.map (convertUTMPoint ops centralMeridian)
  match converted.head? with
  | none => none
  | some f => if |f.1| ≤ 90 ∧ |f.2| ≤ 180 then some converted else none

/-- The fixed UTM zone shortlist (`src/unnamed/part_000` lines 2306-2314). -/
def utmZones : List (ℤ × ℚ) :=
  [(32, 9), (31, 3), (33, 15), (18, -75), (19, -69), (10, -123), (11, -117)]

/-- `tryConvertUTMCoordinates` (`src/unnamed/part_000` lines 2293-2330). -/
def tryConvertUTMCoordinates (ops : TrigOps) (coordinates : List Coord) :
    Option (List Coord) :=
  match coordinates.head? with
  | none => none
  | some f =>
    if 100000 < |f.1| ∧ 100000 < |f.2| then
      utmZones.findSome? fun z => convertUTMToWGS84 ops coordinates z.1 z.2
    else none

/-- One point of `tryConvertMinnaDatum` (`src/unnamed/part_000` lines
2398-2433): inverse Transverse Mercator on the Minna (Clarke 1880) ellipsoid
plus a constant `0.0001` degree shift.  As in `convertUTMPoint`, the source
mixes the degree-valued central meridian into the radian-valued longitude. -/
def convertMinnaPoint (ops : TrigOps) (c : Coord) : Coord :=
  let a : ℚ := 6378249.145
  let e2 : ℚ := 0.006722670
  let falseEasting : ℚ := 500000
  let falseNorthing : ℚ := 0
  let scaleFactor : ℚ := 0.9996
  let centralMeridian : ℚ := 9
  let x := c.1 - falseEasting
  let y := c.2 - falseNorthing
  let mu := y / (a * scaleFactor * (1 - e2 / 4 - 3 * e2 * e2 / 64 - 5 * e2 * e2 * e2 / 256))
  let e1 := (1 - ops.sqrt (1 - e2)) / (1 + ops.sqrt (1 - e2))
  let lat1 := mu + (3 * e1 / 2 - 27 * e1 * e1 * e1 / 32) * ops.sin (2 * mu) +
      (21 * e1 * e1 / 16 - 55 * e1 * e1 * e1 * e1 / 32) * ops.sin (4 * mu) +
      (151 * e1 * e1 * e1 / 96) * ops.sin (6 * mu)
  let lng := centralMeridian +
      ops.atan2 x (a * scaleFactor * (1 - e2 * ops.sin lat1 * ops.sin lat1) * ops.cos lat1)
  let latWGS84 := lat1 * 180 / ops.pi
  let lngWGS84 := lng * 180 / ops.pi
  (latWGS84 + 0.0001, lngWGS84 + 0.0001)

/-- `tryConvertMinnaDatum` (`src/unnamed/part_000` lines 2381-2449): only
attempted when the raw easting/northing lie in the fixed Nigeria bounding
rectangle. -/
def tryConvertMinnaDatum (ops : TrigOps) (coordinates : List Coord) :
    Option (List Coord) :=
  match coordinates.head? with
  | none => none
  | some f =>
    if 100000 ≤ f.1 ∧ f.1 ≤ 900000 ∧ 100000 ≤ f.2 ∧ f.2 ≤ 1200000 then
      let converted := coordinates.map (convertMinnaPoint ops)
      match converted.head? with
      | none => none
      | some g => if |g.1| ≤ 90 ∧ |g.2| ≤ 180 then some converted else none
    else none

/-- `tryGenericCoordinateTransform` (`src/unnamed/part_000` lines 2452-2503):
a shorter scaling list, then the same list with axes swapped. -/
def tryGenericCoordinateTransform (coordinates : List Coord) : Option (List Coord) :=
  match coordinates.head? with
  | none => none
  | some f =>
    let firstPass :=
      if 10000 < |f.1| ∨ 10000 < |f.2| then
        [(1000000 : ℚ), 100000, 10000, 1000, 100].findSome? fun scale =>
          let scaled := coordinates.map fun c => (c.1 / scale, c.2 / scale)
          match scaled.head? with
          | none => none
          | some g => if |g.1| ≤ 90 ∧ |g.2| ≤ 180 then some scaled else none
      else none
    firstPass.orElse fun _ =>
      if 10000 < |f.1| ∨ 10000 < |f.2| then
        [(1000000 : ℚ), 100000, 10000, 1000, 100].findSome? fun scale =>
          let swappedScaled := coordinates.map fun c => (c.2 / scale, c.1 / scale)
          match swappedScaled.head? with
          | none => none
          | some g => if |g.1| ≤ 90 ∧ |g.2| ≤ 180 then some swappedScaled else none
      else none

/-- `tryAggressiveCorrection` (`src/unnamed/part_000` lines 2506-2601):
extreme scaling (plain then swapped) per scale, then offsets, then the
last-resort shape-preserving relocation to the centre of Nigeria, which
always produces a result. -/
def tryAggressiveCorrection (coordinates : List Coord) : List Coord :=
  let scalePass :=
    [(10000000 : ℚ), 1000000, 100000, 10000, 1000, 100, 10, 1].findSome? fun scale =>
      let scaled := coordinates.map fun c => (c.1 / scale, c.2 / scale)
      let attempt₁ :=
        match scaled.head? with
        | none => none
        | some f => if |f.1| ≤ 90 ∧ |f.2| ≤ 180 then some scaled else none
      attempt₁.orElse fun _ =>
        let swappedScaled := coordinates.map fun c => (c.2 / scale, c.1 / scale)
        match swappedScaled.head? with
        | none => none
        | some f => if |f.1| ≤ 90 ∧ |f.2| ≤ 180 then some swappedScaled else none
  match scalePass with
  | some r => r
  | none =>
    let offsetPass :=
      [(1000000 : ℚ), 100000, 10000, 1000].findSome? fun offset =>
        let shifted := coordinates.map fun c => (c.1 - offset, c.2 - offset)
        match shifted.head? with
        | none => none
        | some f => if |f.1| ≤ 90 ∧ |f.2| ≤ 180 then some shifted else none
    match offsetPass with
    | some r => r
    | none =>
      let n : ℚ := coordinates.length
      let centerX := (coordinates.map Prod.fst).sum / n
      let centerY := (coordinates.map Prod.snd).sum / n
      let maxX := ((coordinates.map Prod.fst).max?).getD 0
      let minX := ((coordinates.map Prod.fst).min?).getD 0
      let maxY := ((coordinates.map Prod.snd).max?).getD 0
      let minY := ((coordinates.map Prod.snd).min?).getD 0
      let rangeX := maxX - minX
      let rangeY := maxY - minY
      let scaleX := if 0 < rangeX then min (10 / rangeX) 1 else 1
      let scaleY := if 0 < rangeY then min (10 / rangeY) 1 else 1
      coordinates.map fun c =>
        (8 + (c.2 - centerY) * scaleY, 8 + (c.1 - centerX) * scaleX)

/-- `validateAndFixCoordinates` (`src/unnamed/part_000` lines 2059-2159).
The result pairs the returned value (`none` models the JavaScript `null`
"cannot display" return) with the list of notifications the call emits;
`mapCenter` models `map.getCenter()`.  A `none`/empty argument is returned
before anything happens (line 2060). -/
def validateAndFixCoordinates (ops : TrigOps) (mapCenter : Coord) :
    Option (List Coord) → Option (List Coord) × List Notif
  | none => (none, [])
  | some [] => (some [], [])
  | some (first :: rest) =>
    if |first.1| ≤ 90 ∧ |first.2| ≤ 180 then
      (some (first :: rest),
        if 20 < ops.sqrt ((first.1 - mapCenter.1) ^ 2 + (first.2 - mapCenter.2) ^ 2) then
          [Notif.farFromView]
        else [])
    else if |first.2| ≤ 90 ∧ |first.1| ≤ 180 then
      (some ((first :: rest).map fun c => (c.2, c.1)), [Notif.swapCorrected])
    else if 1000 < |first.1| ∨ 1000 < |first.2| then
      match trySimpleScaling (first :: rest) with
      | some r => (some r, [Notif.scalingSuccess])
      | none =>
        match tryConvertUTMCoordinates ops (first :: rest) with
        | some r => (some r, [Notif.utmSuccess])
        | none =>
          match tryConvertMinnaDatum ops (first :: rest) with
          | some r => (some r, [Notif.minnaSuccess])
          | none =>
            match tryGenericCoordinateTransform (first :: rest) with
            | some r => (some r, [Notif.genericSuccess])
            | none => (none, [Notif.projectionError, Notif.coordRange])
    else
      (some (first :: rest), [Notif.differentSystemWarning])

/-- `validateAndFixCoordinates` of `src/unnamed/part_001` (lines 2001-2030):
this variant has NO repair chain beyond the swap.  A `null`/empty argument is
returned by the guard (line 2002); an implausible first vertex triggers the
swap attempt (lines 2009-2021); when the swap does not help, the second `if`
(lines 2024-2027, same condition) only emits a warning notification and
line 2029 returns the coordinates unchanged. -/
def validateAndFixCoordinates001 :
    Option (List Coord) → Option (List Coord) × List Notif
  | none => (none, [])
  | some [] => (some [], [])
  | some (first :: rest) =>
    if 90 < |first.1| ∨ 180 < |first.2| then
      if |first.2| ≤ 90 ∧ |first.1| ≤ 180 then
        (some ((first :: rest).map fun c => (c.2, c.1)), [Notif.swapCorrected])
      else
        (some (first :: rest), [Notif.differentSystemWarning])
    else
      (some (first :: rest), [])

/-- Modelled from the spec: the §4.3 step-3 repair order as the spec states
it — "(a) scaling, (b) scale+swap, (c) offset, (d) UTM inverse, (e) regional
Minna inverse, (f) generic rescue", stopping at the first success. -/
def specRepairChain (ops : TrigOps) (coordinates : List Coord) : Option (List Coord) :=
  (tryScalingTransform coordinates).orElse fun _ =>
    (tryMixedTransform coordinates).orElse fun _ =>
      (tryOffsetTransform coordinates).orElse fun _ =>
        (tryConvertUTMCoordinates ops coordinates).orElse fun _ =>
          (tryConvertMinnaDatum ops coordinates).orElse fun _ =>
            tryGenericCoordinateTransform coordinates

/-- A concrete operation record for closed instances: the trigonometric
functions are the zero functions and `pi` is the decimal value of the double
`Math.PI`. -/
def constTrig : TrigOps :=
  { sin := fun _ => 0
    cos := fun _ => 0
    sqrt := fun _ => 0
    atan2 := fun _ _ => 0
    pi := 3.141592653589793 }

/-- The area/perimeter cache insertion of `src/unnamed/part_000` (lines
534-542 and 589-597): capacity 50; on overflow the 25 oldest entries (the
cache is an insertion-ordered `Map`) are deleted before inserting. -/
def cacheInsertEvict (cache : List (ℕ × ℚ)) (k : ℕ) (v : ℚ) : List (ℕ × ℚ) :=
  if cache.length < 50 then cache ++ [(k, v)]
  else cache.drop 25 ++ [(k, v)]

/-- The area/perimeter cache insertion of `src/unnamed/part_001` (lines
520-525 and 570-573): capacity 100; on overflow nothing is evicted and the
new entry is simply not inserted. -/
def cacheInsertSkip (cache : List (ℕ × ℚ)) (k : ℕ) (v : ℚ) : List (ℕ × ℚ) :=
  if cache.length < 100 then cache ++ [(k, v)] else cache

/-- A full 100-entry cache, for concrete instances. -/
def fullCache100 : List (ℕ × ℚ) := (List.range 100).map fun i => (i, 0)

end Checker

namespace Geometry

/-- A vertex as `[lat, lng]`: `point[0]` is latitude, `point[1]` longitude. -/
abbrev Point := ℝ × ℝ

/-- The Shoelace loop of `calculatePolygonArea` (`src/unnamed/part_000` lines
510-514, `src/map-script.js` lines 351-355): cyclic sum of
`lng[i]*lat[i+1] - lng[i+1]*lat[i]` with wraparound index `(i+1) % n`. -/
noncomputable def shoelaceSum (points : List Point) : ℝ :=
  ∑ i ∈ Finset.range points.length,
    ((points.getD i (0, 0)).2 * (points.getD ((i + 1) % points.length) (0, 0)).1
      - (points.getD ((i + 1) % points.length) (0, 0)).2 * (points.getD i (0, 0)).1)

/-- The average latitude of all vertices (`src/unnamed/part_000` lines
519-523, `src/map-script.js` line 361). -/
noncomputable def avgLat (points : List Point) : ℝ :=
  (points.map Prod.fst).sum / points.length

/-- `calculatePolygonArea` (`src/unnamed/part_000` lines 495-545,
`src/map-script.js` lines 341-372), without the memoisation wrapper — the
cache insertion never changes the returned value of a fresh computation and
is modelled separately (`Checker.cacheInsertEvict`/`cacheInsertSkip`). -/
noncomputable def calculatePolygonArea (points : List Point) : ℝ :=
  if points.length < 3 then 0
  else
    let area := |shoelaceSum points| * 0.5
    let latRad := avgLat points * Real.pi / 180
    let metersPerDegreeLat : ℝ := 111320
    let metersPerDegreeLng := metersPerDegreeLat * Real.cos latRad
    let conversionFactor := metersPerDegreeLat * metersPerDegreeLng / 1000000
    area * conversionFactor

/-- Modelled from the spec: "fails (returns 0) if `|ring| < 3` … planar
Shoelace formula … take absolute value, halve … multiply the degree² area by
`(metersPerDegreeLat * metersPerDegreeLng) / 1e6`" with
`metersPerDegreeLng = 111320 * cos(avgLatRadians)` and
`metersPerDegreeLat = 111320`. -/
noncomputable def specArea (points : List Point) : ℝ :=
  if points.length < 3 then 0
  else
    |shoelaceSum points| / 2 *
      (111320 * (111320 * Real.cos (avgLat points * Real.pi / 180)) / 1000000)

/-- JavaScript `Math.atan2` over exact reals. -/
noncomputable def atan2 (y x : ℝ) : ℝ :=
  if 0 < x then Real.arctan (y / x)
  else if x < 0 then
    if 0 ≤ y then Real.arctan (y / x) + Real.pi else Real.arctan (y / x) - Real.pi
  else if 0 < y then Real.pi / 2
  else if y < 0 then -(Real.pi / 2)
  else 0

/-- One loop iteration of the perimeter calculation (`src/unnamed/part_000`
lines 568-585): the "optimized Haversine" segment length in meters, with the
`cosLat1` factor passed in because `src/unnamed/part_000` line 566 hoists it
out of the loop (it is `cos` of the FIRST vertex's latitude there), while
`src/map-script.js` line 388 computes `cos(lat1)` per segment. -/
noncomputable def haversineStep (cosLat1 : ℝ) (p q : Point) : ℝ :=
  let lat1 := p.1 * Real.pi / 180
  let lat2 := q.1 * Real.pi / 180
  let deltaLat := lat2 - lat1
  let deltaLng := (q.2 - p.2) * Real.pi / 180
  let sinDeltaLat := Real.sin (deltaLat * 0.5)
  let sinDeltaLng := Real.sin (deltaLng * 0.5)
  let cosLat2 := Real.cos lat2
  let a := sinDeltaLat * sinDeltaLat + cosLat1 * cosLat2 * sinDeltaLng * sinDeltaLng
  let c := 2 * atan2 (Real.sqrt a) (Real.sqrt (1 - a))
  6371000 * c

/-- `calculatePolygonPerimeter` of `src/unnamed/part_000` lines 550-600 and
`src/unnamed/part_001` lines 531-576 (the "optimized" variant): `cosLat1` is
computed once from `points[0]` and reused for every segment. -/
noncomputable def calculatePolygonPerimeterOpt (points : List Point) : ℝ :=
  if points.length < 2 then 0
  else
    let cosLat1 := Real.cos (points.headI.1 * Real.pi / 180)
    (∑ i ∈ Finset.range points.length,
      haversineStep cosLat1 (points.getD i (0, 0))
        (points.getD ((i + 1) % points.length) (0, 0))) * 0.001

/-- `calculatePolygonPerimeter` of `src/map-script.js` lines 374-397: the
plain Haversine loop, `cos(lat1)` recomputed for each segment. -/
noncomputable def calculatePolygonPerimeter (points : List Point) : ℝ :=
  (∑ i ∈ Finset.range points.length,
    haversineStep (Real.cos ((points.getD i (0, 0)).1 * Real.pi / 180))
      (points.getD i (0, 0))
      (points.getD ((i + 1) % points.length) (0, 0))) / 1000

/-- The bounding box record (`src/unnamed/part_000` lines 629-633). -/
structure BoundingBox where
  minLat : ℝ
  maxLat : ℝ
  minLng : ℝ
  maxLng : ℝ
  width : ℝ
  height : ℝ

/-- `calculateBoundingBox` (`src/unnamed/part_000` lines 615-634,
`src/map-script.js` lines 412-431): `null` for an empty list, else min/max
folds seeded from the first vertex. -/
noncomputable def calculateBoundingBox (points : List Point) : Option BoundingBox :=
  match points with
  | [] => none
  | p :: rest =>
    let minLat := (p :: rest).foldl (fun acc q => min acc q.1) p.1
    let maxLat := (p :: rest).foldl (fun acc q => max acc q.1) p.1
    let minLng := (p :: rest).foldl (fun acc q => min acc q.2) p.2
    let maxLng := (p :: rest).foldl (fun acc q => max acc q.2) p.2
    some ⟨minLat, maxLat, minLng, maxLng, maxLng - minLng, maxLat - minLat⟩

/-- `calculateAspectRatio` (`src/unnamed/part_000` lines 636-649,
`src/map-script.js` lines 433-446).  The JavaScript returns
`widthM / heightM` unconditionally; when `heightM = 0` that IEEE division is
`Infinity` or `NaN`, a non-finite number that no real models — encoded here
as `none`.  All finite outcomes are `some`. -/
noncomputable def calculateAspectRatio (points : List Point) : Option ℝ :=
  match calculateBoundingBox points with
  | none => some 0
  | some bbox =>
    let avgLatBox := (bbox.minLat + bbox.maxLat) / 2
    let latRad := avgLatBox * Real.pi / 180
    let widthM := bbox.width * 111320 * Real.cos latRad
    let heightM := bbox.height * 111320
    if heightM = 0 then none else some (widthM / heightM)

end Geometry

/-! ## Theorems -/

namespace Checker

/-- Every `(map, check first vertex)`-shaped attempt returns `none` or the
mapped list itself. -/
theorem headCheck_shape (cs : List Coord) (f : Coord → Coord) (P : Coord → Prop)
    [DecidablePred P] :
    (match (cs.map f).head? with
      | none => none
      | some g => if P g then some (cs.map f) else none) = none ∨
    (match (cs.map f).head? with
      | none => none
      | some g => if P g then some (cs.map f) else none) = some (cs.map f) := by
  cases h : (cs.map f).head? with
  | none => exact Or.inl rfl
  | some g =>
    by_cases hP : P g
    · exact Or.inr (by simp [hP])
    · exact Or.inl (by simp [hP])

/-- `findSome?` over attempts that each return `none` or a mapped copy of
`cs` itself returns `none` or a mapped copy of `cs`. -/
theorem findSome?_map_shape {α : Type} (cs : List Coord)
    (att : α → Option (List Coord))
    (h : ∀ s, att s = none ∨ ∃ g, att s = some (cs.map g)) :
    ∀ L : List α, L.findSome? att = none ∨ ∃ g, L.findSome? att = some (cs.map g) := by
  intro L
  induction L with
  | nil => exact Or.inl rfl
  | cons a L ih =>
    rcases h a with ha | ⟨g, hg⟩
    · simpa [List.findSome?_cons, ha] using ih
    · exact Or.inr ⟨g, by simp [List.findSome?_cons, hg]⟩

/-- `orElse` of two shape-respecting options respects the shape. -/
theorem orElse_map_shape (cs : List Coord) (a b : Option (List Coord))
    (ha : a = none ∨ ∃ g, a = some (cs.map g))
    (hb : b = none ∨ ∃ g, b = some (cs.map g)) :
    (a.orElse fun _ => b) = none ∨ ∃ g, (a.orElse fun _ => b) = some (cs.map g) := by
  rcases ha with ha | ⟨g, hg⟩
  · simpa [ha, Option.orElse] using hb
  · exact Or.inr ⟨g, by simp [hg, Option.orElse]⟩

end Checker


namespace Checker

/-- When a shape-respecting `findSome?` yields `some r`, `r` is a mapped
copy of `cs`. -/
theorem findSome?_att_some {α : Type} (cs : List Coord)
    (att : α → Option (List Coord)) (L : List α) (r : List Coord)
    (hshape : ∀ s, att s = none ∨ ∃ g, att s = some (cs.map g))
    (h : L.findSome? att = some r) : ∃ g, r = cs.map g := by
  rcases findSome?_map_shape cs att hshape L with h0 | ⟨g, h0⟩
  · rw [h0] at h
    cases h
  · rw [h0] at h
    exact ⟨g, (Option.some_inj.mp h).symm⟩

theorem tryScalingTransform_shape (cs : List Coord) :
    tryScalingTransform cs = none ∨ ∃ g, tryScalingTransform cs = some (cs.map g) := by
  unfold tryScalingTransform
  refine findSome?_map_shape cs _ (fun s => ?_) _
  exact (headCheck_shape cs (fun c => (c.1 / s, c.2 / s)) _).imp id fun h => ⟨_, h⟩

theorem trySwapTransform_shape (cs : List Coord) :
    trySwapTransform cs = none ∨ ∃ g, trySwapTransform cs = some (cs.map g) := by
  unfold trySwapTransform
  exact (headCheck_shape cs (fun c => (c.2, c.1)) _).imp id fun h => ⟨_, h⟩

theorem tryOffsetTransform_shape (cs : List Coord) :
    tryOffsetTransform cs = none ∨ ∃ g, tryOffsetTransform cs = some (cs.map g) := by
  unfold tryOffsetTransform
  refine findSome?_map_shape cs _ (fun s => ?_) _
  exact (headCheck_shape cs (fun c => (c.1 - s, c.2 - s)) _).imp id fun h => ⟨_, h⟩

theorem tryMixedTransform_shape (cs : List Coord) :
    tryMixedTransform cs = none ∨ ∃ g, tryMixedTransform cs = some (cs.map g) := by
  unfold tryMixedTransform
  refine findSome?_map_shape cs _ (fun s => ?_) _
  exact (headCheck_shape cs (fun c => (c.2 / s, c.1 / s)) _).imp id fun h => ⟨_, h⟩

theorem convertUTMToWGS84_shape (ops : TrigOps) (cs : List Coord) (zone : ℤ) (cm : ℚ) :
    convertUTMToWGS84 ops cs zone cm = none ∨
      ∃ g, convertUTMToWGS84 ops cs zone cm = some (cs.map g) := by
  unfold convertUTMToWGS84
  exact (headCheck_shape cs (convertUTMPoint ops cm) _).imp id fun h => ⟨_, h⟩

theorem tryConvertMinnaDatum_shape (ops : TrigOps) (cs : List Coord) :
    tryConvertMinnaDatum ops cs = none ∨
      ∃ g, tryConvertMinnaDatum ops cs = some (cs.map g) := by
  unfold tryConvertMinnaDatum
  split
  · exact Or.inl rfl
  · split
    · exact (headCheck_shape cs (convertMinnaPoint ops) _).imp id fun h => ⟨_, h⟩
    · exact Or.inl rfl

theorem tryGenericCoordinateTransform_shape (cs : List Coord) :
    tryGenericCoordinateTransform cs = none ∨
      ∃ g, tryGenericCoordinateTransform cs = some (cs.map g) := by
  unfold tryGenericCoordinateTransform
  split
  · exact Or.inl rfl
  · refine orElse_map_shape cs _ _ ?_ ?_
    · split
      · refine findSome?_map_shape cs _ (fun s => ?_) _
        exact (headCheck_shape cs (fun c => (c.1 / s, c.2 / s)) _).imp id fun h => ⟨_, h⟩
      · exact Or.inl rfl
    · split
      · refine findSome?_map_shape cs _ (fun s => ?_) _
        exact (headCheck_shape cs (fun c => (c.2 / s, c.1 / s)) _).imp id fun h => ⟨_, h⟩
      · exact Or.inl rfl

theorem tryAggressiveCorrection_shape (cs : List Coord) :
    ∃ g, tryAggressiveCorrection cs = cs.map g := by
  unfold tryAggressiveCorrection
  dsimp only
  split
  · next r heq =>
    refine findSome?_att_some cs _ _ r (fun s => ?_) heq
    refine orElse_map_shape cs _ _ ?_ ?_
    · exact (headCheck_shape cs (fun c => (c.1 / s, c.2 / s)) _).imp id fun h => ⟨_, h⟩
    · exact (headCheck_shape cs (fun c => (c.2 / s, c.1 / s)) _).imp id fun h => ⟨_, h⟩
  · split
    · next r heq =>
      refine findSome?_att_some cs _ _ r (fun s => ?_) heq
      exact (headCheck_shape cs (fun c => (c.1 - s, c.2 - s)) _).imp id fun h => ⟨_, h⟩
    · exact ⟨_, rfl⟩

end Checker

namespace Checker

/-- C9: every repair transform of the sanity checker — swap, scaling,
scale-then-swap, offset, UTM inverse, Minna-datum inverse, generic rescue
and the aggressive last-resort relocation — returns, when it returns a
result at all, the input list mapped by a pointwise function: the output has
exactly the input's number of vertices and each output vertex is computed
from the input vertex at the same position. -/
theorem repair_transforms_are_pointwise_maps (ops : TrigOps) :
    (∀ cs : List Coord,
      trySwapTransform cs = none ∨ ∃ g, trySwapTransform cs = some (cs.map g)) ∧
    (∀ cs : List Coord,
      tryScalingTransform cs = none ∨ ∃ g, tryScalingTransform cs = some (cs.map g)) ∧
    (∀ cs : List Coord,
      tryMixedTransform cs = none ∨ ∃ g, tryMixedTransform cs = some (cs.map g)) ∧
    (∀ cs : List Coord,
      tryOffsetTransform cs = none ∨ ∃ g, tryOffsetTransform cs = some (cs.map g)) ∧
    (∀ (cs : List Coord) (zone : ℤ) (cm : ℚ),
      convertUTMToWGS84 ops cs zone cm = none ∨
        ∃ g, convertUTMToWGS84 ops cs zone cm = some (cs.map g)) ∧
    (∀ cs : List Coord,
      tryConvertMinnaDatum ops cs = none ∨
        ∃ g, tryConvertMinnaDatum ops cs = some (cs.map g)) ∧
    (∀ cs : List Coord,
      tryGenericCoordinateTransform cs = none ∨
        ∃ g, tryGenericCoordinateTransform cs = some (cs.map g)) ∧
    (∀ cs : List Coord, ∃ g, tryAggressiveCorrection cs = cs.map g) :=
  ⟨trySwapTransform_shape, tryScalingTransform_shape, tryMixedTransform_shape,
    tryOffsetTransform_shape, convertUTMToWGS84_shape ops, tryConvertMinnaDatum_shape ops,
    tryGenericCoordinateTransform_shape, tryAggressiveCorrection_shape⟩

/-- C10: a `null`/`undefined` or empty coordinate argument makes
`validateAndFixCoordinates` return the argument itself from its guard clause
(`src/unnamed/part_000` line 2060), with no notification emitted — in
particular without the failure notifications of the projected branch. -/
theorem null_or_empty_input_passthrough (ops : TrigOps) (mapCenter : Coord) :
    validateAndFixCoordinates ops mapCenter none = (none, []) ∧
    validateAndFixCoordinates ops mapCenter (some []) = (some [], []) :=
  ⟨rfl, rfl⟩

/-- C6 (amended): the `part_000` caches (capacity 50) evict the 25 oldest
entries on overflow and never exceed 50 entries; the `part_001` caches
(capacity 100) skip the insertion entirely on overflow — nothing is evicted
and the new entry is NOT inserted — and never exceed 100 entries. -/
theorem cache_insertion_behaviour :
    (∀ (c : List (ℕ × ℚ)) (k : ℕ) (v : ℚ), c.length = 50 →
        cacheInsertEvict c k v = c.drop 25 ++ [(k, v)]) ∧
    (∀ (c : List (ℕ × ℚ)) (k : ℕ) (v : ℚ), c.length ≤ 50 →
        (cacheInsertEvict c k v).length ≤ 50) ∧
    (∀ (c : List (ℕ × ℚ)) (k : ℕ) (v : ℚ), c.length = 100 →
        cacheInsertSkip c k v = c) ∧
    (∀ (c : List (ℕ × ℚ)) (k : ℕ) (v : ℚ), c.length ≤ 100 →
        (cacheInsertSkip c k v).length ≤ 100) := by
  refine ⟨fun c k v h => ?_, fun c k v h => ?_, fun c k v h => ?_, fun c k v h => ?_⟩
  · rw [cacheInsertEvict, if_neg (by omega)]
  · rw [cacheInsertEvict]
    split
    · simp only [List.length_append, List.length_cons, List.length_nil]
      omega
    · simp only [List.length_append, List.length_drop, List.length_cons, List.length_nil]
      omega
  · rw [cacheInsertSkip, if_neg (by omega)]
  · rw [cacheInsertSkip]
    split
    · simp only [List.length_append, List.length_cons, List.length_nil]
      omega
    · omega

/-- C6 counterexample: with a full 100-entry `part_001` cache, an attempted
insertion does NOT evict the oldest half and does NOT insert the new entry:
the cache is returned unchanged and the new key is absent. -/
theorem cache_skip_counterexample :
    cacheInsertSkip fullCache100 1000 5 = fullCache100 ∧
    (1000, (5 : ℚ)) ∉ cacheInsertSkip fullCache100 1000 5 := by
  have hlen : fullCache100.length = 100 := by
    simp [fullCache100]
  constructor
  · rw [cacheInsertSkip, if_neg (by omega)]
  · rw [cacheInsertSkip, if_neg (by omega)]
    simp only [fullCache100, List.mem_map, List.mem_range]
    rintro ⟨i, hi, h⟩
    have : i = 1000 := congrArg Prod.fst h
    omega

end Checker

namespace Checker

/-- In the projected branch the top-level swap has already failed, so the
swap retry inside `trySimpleScaling` fails too. -/
theorem trySwapTransform_none (first : Coord) (rest : List Coord)
    (h : ¬(|first.2| ≤ 90 ∧ |first.1| ≤ 180)) :
    trySwapTransform (first :: rest) = none := by
  unfold trySwapTransform
  simp only [List.map_cons, List.head?_cons]
  exact if_neg h

/-- If plain scaling finds no scale, then already the largest scale `1e7`
failed, so the first vertex is enormous. -/
theorem tryScalingTransform_none_bound (first : Coord) (rest : List Coord)
    (h : tryScalingTransform (first :: rest) = none) :
    900000000 < |first.1| ∨ 1800000000 < |first.2| := by
  unfold tryScalingTransform at h
  rw [List.findSome?_eq_none_iff] at h
  have h7 := h 10000000 (by simp)
  simp only [List.map_cons, List.head?_cons] at h7
  by_contra hc
  push_neg at hc
  obtain ⟨hx, hy⟩ := hc
  rw [if_pos ?_] at h7
  · exact Option.noConfusion h7
  · constructor
    · rw [abs_div, abs_of_pos (by norm_num : (0 : ℚ) < 10000000),
        div_le_iff₀ (by norm_num : (0 : ℚ) < 10000000)]
      linarith
    · rw [abs_div, abs_of_pos (by norm_num : (0 : ℚ) < 10000000),
        div_le_iff₀ (by norm_num : (0 : ℚ) < 10000000)]
      linarith

/-- From a bound on `|x / s|` to a bound on `|x|`. -/
theorem abs_div_le_bound {x s b : ℚ} (hs : 0 < s) (h : |x / s| ≤ b) : |x| ≤ b * s := by
  rw [abs_div, abs_of_pos hs, div_le_iff₀ hs] at h
  exact h

/-- Whenever plain scaling fails, scale-then-swap fails as well: every
scale-then-swap success needs first-vertex magnitudes that plain scaling by
`1e7` would already have accepted. -/
theorem tryMixedTransform_none_of_scaling (first : Coord) (rest : List Coord)
    (h : tryScalingTransform (first :: rest) = none) :
    tryMixedTransform (first :: rest) = none := by
  have hb := tryScalingTransform_none_bound first rest h
  unfold tryMixedTransform
  rw [List.findSome?_eq_none_iff]
  intro s hs
  simp only [List.map_cons, List.head?_cons]
  apply if_neg
  rintro ⟨h1, h2⟩
  fin_cases hs <;>
    rcases hb with hb | hb <;>
    first
      | (have h3 := abs_div_le_bound (by norm_num) h2; linarith)
      | (have h3 := abs_div_le_bound (by norm_num) h1; linarith)

theorem scaling_none_of_simple_none (cs : List Coord)
    (h : trySimpleScaling cs = none) : tryScalingTransform cs = none := by
  unfold trySimpleScaling at h
  cases hs : tryScalingTransform cs with
  | none => rfl
  | some r =>
    rw [hs] at h
    simp [Option.orElse] at h

theorem trySimpleScaling_eq_offset (cs : List Coord)
    (h1 : tryScalingTransform cs = none) (h2 : trySwapTransform cs = none)
    (h4 : tryMixedTransform cs = none) :
    trySimpleScaling cs = tryOffsetTransform cs := by
  unfold trySimpleScaling
  rw [h1, h2, h4]
  cases ho : tryOffsetTransform cs <;> simp [Option.orElse]

/-- C2: for a nonempty coordinate list whose first vertex is implausible,
whose swap does not help, and whose first vertex has magnitude over 1000,
the checker's returned value is exactly the value of the repair chain in the
spec's order — (a) scaling, (b) scale+swap, (c) offset, (d) UTM, (e) Minna,
(f) generic rescue, first success wins, `none` when all fail.  (The code
runs (b) after (c) and retries the swap in between, but the swap retry can
never succeed there and a scale+swap success forces a prior plain-scaling
success, so the two orders are extensionally equal.) -/
theorem projected_branch_follows_spec_order (ops : TrigOps) (mc : Coord)
    (first : Coord) (rest : List Coord)
    (h1 : ¬(|first.1| ≤ 90 ∧ |first.2| ≤ 180))
    (h2 : ¬(|first.2| ≤ 90 ∧ |first.1| ≤ 180))
    (h3 : 1000 < |first.1| ∨ 1000 < |first.2|) :
    (validateAndFixCoordinates ops mc (some (first :: rest))).1 =
      specRepairChain ops (first :: rest) := by
  simp only [validateAndFixCoordinates, specRepairChain]
  rw [if_neg h1, if_neg h2, if_pos h3]
  cases hs : tryScalingTransform (first :: rest) with
  | some r =>
    have hss : trySimpleScaling (first :: rest) = some r := by
      unfold trySimpleScaling
      rw [hs]
      rfl
    rw [hss]
    rfl
  | none =>
    have hsw := trySwapTransform_none first rest h2
    have hm := tryMixedTransform_none_of_scaling first rest hs
    rw [trySimpleScaling_eq_offset _ hs hsw hm, hm]
    cases ho : tryOffsetTransform (first :: rest) with
    | some r => simp [Option.orElse]
    | none =>
      cases hu : tryConvertUTMCoordinates ops (first :: rest) with
      | some r => simp [Option.orElse]
      | none =>
        cases hmn : tryConvertMinnaDatum ops (first :: rest) with
        | some r => simp [Option.orElse]
        | none =>
          cases hg : tryGenericCoordinateTransform (first :: rest) with
          | some r => simp [Option.orElse]
          | none => simp [Option.orElse]

end Checker

namespace Checker

/-- C4 counterexample: `[[1e10, 1e10]]` has an implausible first vertex and
no heuristic of the repair chain can fix it (swap, simple scaling, UTM,
Minna and the generic rescue all fail, shown here for every conjunct), yet
the checker of `src/unnamed/part_001` returns the implausible coordinates
unchanged as a value — only a warning is emitted, no failure — so the
cited code does return implausible coordinates as if they were a valid
answer. -/
theorem part001_implausible_passthrough_counterexample :
    validateAndFixCoordinates001 (some [((10000000000 : ℚ), 10000000000)]) =
      (some [((10000000000 : ℚ), 10000000000)], [Notif.differentSystemWarning]) ∧
    ¬(|(10000000000 : ℚ)| ≤ 90 ∧ |(10000000000 : ℚ)| ≤ 180) ∧
    trySimpleScaling [((10000000000 : ℚ), 10000000000)] = none ∧
    tryConvertUTMCoordinates constTrig [((10000000000 : ℚ), 10000000000)] = none ∧
    tryConvertMinnaDatum constTrig [((10000000000 : ℚ), 10000000000)] = none ∧
    tryGenericCoordinateTransform [((10000000000 : ℚ), 10000000000)] = none := by
  refine ⟨?_, ?_, ?_, ?_, ?_, ?_⟩
  · simp only [validateAndFixCoordinates001]
    norm_num [abs_le, lt_abs]
  · norm_num [abs_le]
  · simp only [trySimpleScaling, tryScalingTransform, trySwapTransform, tryOffsetTransform,
      tryMixedTransform, List.map_cons, List.map_nil, List.findSome?_cons,
      List.findSome?_nil, List.head?_cons, Option.orElse]
    norm_num [abs_le]
  · simp only [tryConvertUTMCoordinates, convertUTMToWGS84, convertUTMPoint, constTrig,
      utmZones, List.map_cons, List.map_nil, List.findSome?_cons,
      List.findSome?_nil, List.head?_cons]
    norm_num [abs_le]
  · simp only [tryConvertMinnaDatum, List.head?_cons]
    norm_num
  · simp only [tryGenericCoordinateTransform, List.map_cons, List.map_nil,
      List.findSome?_cons, List.findSome?_nil, List.head?_cons, Option.orElse]
    norm_num [abs_le]

/-- C4 (amended): the two cited checkers diverge on an implausible input no
heuristic can repair.  The `part_000` checker returns the explicit failure
`none` with the error notifications — its `> 1000` branch guard follows
from the failure of plain scaling, since a first vertex of magnitude at
most `9e8`/`1.8e9` would have been accepted at scale `1e7` — and never
returns the implausible input as a value.  The `part_001` checker has no
repair chain beyond the swap: whenever the first vertex is implausible and
the swap does not help, it returns the implausible coordinates unchanged,
emitting only a warning. -/
theorem checker_failure_surfacing_by_file :
    (∀ (ops : TrigOps) (mc first : Coord) (rest : List Coord),
      ¬(|first.1| ≤ 90 ∧ |first.2| ≤ 180) →
      ¬(|first.2| ≤ 90 ∧ |first.1| ≤ 180) →
      trySimpleScaling (first :: rest) = none →
      tryConvertUTMCoordinates ops (first :: rest) = none →
      tryConvertMinnaDatum ops (first :: rest) = none →
      tryGenericCoordinateTransform (first :: rest) = none →
      validateAndFixCoordinates ops mc (some (first :: rest)) =
        (none, [Notif.projectionError, Notif.coordRange])) ∧
    (∀ (first : Coord) (rest : List Coord),
      ¬(|first.1| ≤ 90 ∧ |first.2| ≤ 180) →
      ¬(|first.2| ≤ 90 ∧ |first.1| ≤ 180) →
      validateAndFixCoordinates001 (some (first :: rest)) =
        (some (first :: rest), [Notif.differentSystemWarning])) := by
  constructor
  · intro ops mc first rest h1 h2 h3 h4 h5 h6
    have hsc := scaling_none_of_simple_none _ h3
    have hb := tryScalingTransform_none_bound first rest hsc
    have h1000 : 1000 < |first.1| ∨ 1000 < |first.2| := by
      rcases hb with hb | hb
      · exact Or.inl (by linarith)
      · exact Or.inr (by linarith)
    simp only [validateAndFixCoordinates]
    rw [if_neg h1, if_neg h2, if_pos h1000, h3, h4, h5, h6]
  · intro first rest h1 h2
    have h1' : 90 < |first.1| ∨ 180 < |first.2| := by
      rcases not_and_or.mp h1 with h | h
      · exact Or.inl (not_le.mp h)
      · exact Or.inr (not_le.mp h)
    simp only [validateAndFixCoordinates001]
    rw [if_pos h1', if_neg h2]

/-- Witness for the amended C4, applying both conjuncts at the concrete
unrepairable input `[[1e10, 1e10]]`. -/
theorem checker_failure_surfacing_by_file_witness :
    validateAndFixCoordinates constTrig (0, 0)
        (some [((10000000000 : ℚ), 10000000000)]) =
      (none, [Notif.projectionError, Notif.coordRange]) ∧
    validateAndFixCoordinates001 (some [((10000000000 : ℚ), 10000000000)]) =
      (some [((10000000000 : ℚ), 10000000000)], [Notif.differentSystemWarning]) :=
  ⟨checker_failure_surfacing_by_file.1 constTrig (0, 0) (10000000000, 10000000000) []
    (by norm_num [abs_le])
    (by norm_num [abs_le])
    (by
      simp only [trySimpleScaling, tryScalingTransform, trySwapTransform, tryOffsetTransform,
        tryMixedTransform, List.map_cons, List.map_nil, List.findSome?_cons,
        List.findSome?_nil, List.head?_cons, Option.orElse]
      norm_num [abs_le])
    (by
      simp only [tryConvertUTMCoordinates, convertUTMToWGS84, convertUTMPoint, constTrig,
        utmZones, List.map_cons, List.map_nil, List.findSome?_cons,
        List.findSome?_nil, List.head?_cons]
      norm_num [abs_le])
    (by
      simp only [tryConvertMinnaDatum, List.head?_cons]
      norm_num)
    (by
      simp only [tryGenericCoordinateTransform, List.map_cons, List.map_nil,
        List.findSome?_cons, List.findSome?_nil, List.head?_cons, Option.orElse]
      norm_num [abs_le]),
  checker_failure_surfacing_by_file.2 (10000000000, 10000000000) []
    (by norm_num [abs_le])
    (by norm_num [abs_le])⟩

/-- Witness for C2 at the same concrete input, on which every attempt of the
chain fails. -/
theorem projected_branch_follows_spec_order_witness :
    (validateAndFixCoordinates constTrig (0, 0)
        (some [((10000000000 : ℚ), 10000000000)])).1 =
      specRepairChain constTrig [((10000000000 : ℚ), 10000000000)] :=
  projected_branch_follows_spec_order constTrig (0, 0) (10000000000, 10000000000) []
    (by norm_num [abs_le])
    (by norm_num [abs_le])
    (Or.inl (by rw [abs_of_pos (by norm_num)]; norm_num))

end Checker

namespace Checker

/-- C5 (amended): on a coordinate list starting with `[700000, 450000]` —
inside the Minna bounding rectangle — the checker returns a result in
plausible WGS84 ranges, but it is produced and tagged by the SIMPLE SCALING
transform (division by `1e7`), which runs before, and so preempts, the
regional Minna-datum converter. -/
theorem minna_rectangle_input_gets_scaling (ops : TrigOps) (mc : Coord)
    (rest : List Coord) :
    validateAndFixCoordinates ops mc (some (((700000 : ℚ), (450000 : ℚ)) :: rest)) =
      (some (((7 : ℚ)/100, (9 : ℚ)/200) ::
          rest.map fun c => (c.1 / 10000000, c.2 / 10000000)),
        [Notif.scalingSuccess]) ∧
    |(7 : ℚ)/100| ≤ 90 ∧ |(9 : ℚ)/200| ≤ 180 := by
  constructor
  · have hscale : trySimpleScaling (((700000 : ℚ), (450000 : ℚ)) :: rest) =
        some (((7 : ℚ)/100, (9 : ℚ)/200) ::
          rest.map fun c => (c.1 / 10000000, c.2 / 10000000)) := by
      simp only [trySimpleScaling, tryScalingTransform, List.findSome?_cons,
        List.map_cons, List.head?_cons, Option.orElse]
      norm_num [abs_le]
    simp only [validateAndFixCoordinates, hscale]
    norm_num [abs_le, lt_abs]
  · constructor <;> rw [abs_le] <;> constructor <;> norm_num

/-- C5 counterexample: on exactly `[[700000, 450000]]` the checker's
notification is the simple-scaling tag, not the Minna (regional-datum) tag,
and the returned coordinates are the inputs divided by `1e7`. -/
theorem minna_tag_counterexample :
    validateAndFixCoordinates constTrig (0, 0)
        (some [((700000 : ℚ), (450000 : ℚ))]) =
      (some [((7 : ℚ)/100, (9 : ℚ)/200)], [Notif.scalingSuccess]) ∧
    Notif.scalingSuccess ≠ Notif.minnaSuccess := by
  constructor
  · have hscale : trySimpleScaling [((700000 : ℚ), (450000 : ℚ))] =
        some [((7 : ℚ)/100, (9 : ℚ)/200)] := by
      simp only [trySimpleScaling, tryScalingTransform, List.findSome?_cons,
        List.map_cons, List.map_nil, List.head?_cons, Option.orElse]
      norm_num [abs_le]
    simp only [validateAndFixCoordinates, hscale]
    norm_num [abs_le, lt_abs]
  · decide

end Checker

namespace Geometry

/-- C1: `calculatePolygonArea` returns `0` for fewer than 3 vertices and
otherwise exactly the spec's formula — the absolute Shoelace sum halved,
times `(111320 * (111320 * cos(avgLatRadians))) / 1e6` with `avgLat` the
arithmetic mean of all vertex latitudes. -/
theorem area_matches_spec_formula (points : List Point) :
    calculatePolygonArea points = specArea points := by
  unfold calculatePolygonArea specArea
  split
  · rfl
  · dsimp only
    ring

/-- C7 counterexample: on the two-vertex list `[[0,0],[0,1]]` the bounding
box has height 0; the claim says `aspectRatio` returns 0 there, but the
JavaScript divides by `heightM = 0` and produces a non-finite number (no
height-0 guard exists in the source), modelled as `none`. -/
theorem aspect_ratio_zero_height_counterexample :
    calculateAspectRatio [((0 : ℝ), 0), (0, 1)] ≠ some 0 ∧
    calculateAspectRatio [((0 : ℝ), 0), (0, 1)] = none := by
  have hbox : calculateBoundingBox [((0 : ℝ), 0), (0, 1)] =
      some ⟨0, 0, 0, 1, 1, 0⟩ := by
    unfold calculateBoundingBox
    dsimp only
    norm_num [List.foldl]
  have hra : calculateAspectRatio [((0 : ℝ), 0), (0, 1)] = none := by
    unfold calculateAspectRatio
    rw [hbox]
    dsimp only
    rw [if_pos (by norm_num)]
  exact ⟨by rw [hra]; exact fun h => Option.noConfusion h, hra⟩

/-- C7 (amended): `calculateAspectRatio` returns `0` for the empty list
(null bounding box); when the bounding-box height is `0` the JavaScript
division yields a non-finite value (Infinity or NaN, `none` in the model)
rather than `0`; otherwise it returns the width in meters, scaled by
`cos(avgLatRadians)`, divided by the height in meters. -/
theorem aspect_ratio_cases (points : List Point) :
    (points = [] → calculateAspectRatio points = some 0) ∧
    (∀ bbox, calculateBoundingBox points = some bbox → bbox.height = 0 →
      calculateAspectRatio points = none) ∧
    (∀ bbox, calculateBoundingBox points = some bbox → bbox.height ≠ 0 →
      calculateAspectRatio points =
        some (bbox.width * 111320 *
            Real.cos ((bbox.minLat + bbox.maxLat) / 2 * Real.pi / 180) /
          (bbox.height * 111320))) := by
  refine ⟨fun h => ?_, fun bbox hb h0 => ?_, fun bbox hb h0 => ?_⟩
  · subst h
    rfl
  · unfold calculateAspectRatio
    rw [hb]
    dsimp only
    rw [if_pos (by rw [h0]; ring)]
  · unfold calculateAspectRatio
    rw [hb]
    dsimp only
    rw [if_neg (by exact mul_ne_zero h0 (by norm_num))]

end Geometry

namespace Geometry

theorem getD_reverse (l : List Point) (i : ℕ) (h : i < l.length) :
    l.reverse.getD i (0, 0) = l.getD (l.length - 1 - i) (0, 0) := by
  rw [List.getD_eq_getElem?_getD, List.getD_eq_getElem?_getD, List.getElem?_reverse h]

/-- Stepping the cyclic successor from the reversed position `n-1-(a+1)%n`
lands on `n-1-a`. -/
theorem cyclic_succ_reversed (n a : ℕ) (hpos : 0 < n) (ha : a < n) :
    (n - 1 - (a + 1) % n + 1) % n = n - 1 - a := by
  by_cases hc : a + 1 = n
  · have h1 : (a + 1) % n = 0 := by rw [hc, Nat.mod_self]
    rw [h1]
    have h2 : n - 1 - 0 + 1 = n := by omega
    rw [h2, Nat.mod_self]
    omega
  · have h1 : (a + 1) % n = a + 1 := Nat.mod_eq_of_lt (by omega)
    rw [h1]
    have h2 : n - 1 - (a + 1) + 1 = n - 1 - a := by omega
    rw [h2]
    exact Nat.mod_eq_of_lt (by omega)

/-- Reversing the vertex list flips the sign of the Shoelace sum: the index
map `a ↦ n-1-(a+1)%n` is an involution of `range n` exchanging each edge
with its reverse. -/
theorem shoelaceSum_reverse (points : List Point) :
    shoelaceSum points.reverse = -shoelaceSum points := by
  unfold shoelaceSum
  rw [List.length_reverse]
  rcases Nat.eq_zero_or_pos points.length with h0 | hpos
  · simp [h0]
  · rw [← Finset.sum_neg_distrib]
    refine Finset.sum_nbij'
      (fun a => points.length - 1 - (a + 1) % points.length)
      (fun a => points.length - 1 - (a + 1) % points.length)
      (fun a ha => ?_) (fun a ha => ?_) (fun a ha => ?_) (fun a ha => ?_)
      (fun a ha => ?_)
    · simp only [Finset.mem_range] at ha ⊢
      omega
    · simp only [Finset.mem_range] at ha ⊢
      omega
    · simp only [Finset.mem_range] at ha
      dsimp only
      rw [cyclic_succ_reversed points.length a hpos ha]
      omega
    · simp only [Finset.mem_range] at ha
      dsimp only
      rw [cyclic_succ_reversed points.length a hpos ha]
      omega
    · simp only [Finset.mem_range] at ha
      have hmod : (a + 1) % points.length < points.length := Nat.mod_lt _ hpos
      rw [getD_reverse points a ha, getD_reverse points _ hmod,
        cyclic_succ_reversed points.length a hpos ha]
      ring

theorem avgLat_reverse (points : List Point) : avgLat points.reverse = avgLat points := by
  unfold avgLat
  rw [List.map_reverse, List.sum_reverse, List.length_reverse]

theorem list_abs_sum_le (l : List ℝ) (b : ℝ) (h : ∀ x ∈ l, |x| ≤ b) :
    |l.sum| ≤ b * l.length := by
  induction l with
  | nil => simp
  | cons x l ih =>
    have hx := h x (List.mem_cons_self x l)
    have hl := ih fun y hy => h y (List.mem_cons_of_mem x hy)
    simp only [List.sum_cons, List.length_cons]
    push_cast
    calc |x + l.sum| ≤ |x| + |l.sum| := abs_add x l.sum
      _ ≤ b * l.length + b := by linarith
      _ = b * (l.length + 1) := by ring

theorem abs_avgLat_le (points : List Point) (hpos : 0 < points.length)
    (h : ∀ p ∈ points, |p.1| ≤ 90) : |avgLat points| ≤ 90 := by
  unfold avgLat
  have hsum : |(points.map Prod.fst).sum| ≤ 90 * (points.map Prod.fst).length := by
    apply list_abs_sum_le
    intro x hx
    rcases List.mem_map.mp hx with ⟨p, hp, rfl⟩
    exact h p hp
  rw [List.length_map] at hsum
  have hn : (0 : ℝ) < points.length := by
    exact_mod_cast hpos
  rw [abs_div, abs_of_pos hn, div_le_iff₀ hn]
  linarith [hsum]

theorem conversion_cos_nonneg (points : List Point) (hpos : 0 < points.length)
    (h : ∀ p ∈ points, |p.1| ≤ 90) :
    0 ≤ Real.cos (avgLat points * Real.pi / 180) := by
  have habs := abs_avgLat_le points hpos h
  rw [abs_le] at habs
  apply Real.cos_nonneg_of_mem_Icc
  constructor
  · nlinarith [mul_nonneg (by linarith [habs.1] : (0 : ℝ) ≤ avgLat points + 90)
      Real.pi_pos.le]
  · nlinarith [mul_nonneg (by linarith [habs.2] : (0 : ℝ) ≤ 90 - avgLat points)
      Real.pi_pos.le]

/-- C8: over a Ring (every latitude within ±90°), the computed area is
nonnegative and invariant under reversal of the vertex list: the Shoelace
sum flips its sign (and the absolute value kills it), while the average
latitude and the vertex count are unchanged. -/
theorem area_nonneg_and_reverse_invariant (points : List Point)
    (h : ∀ p ∈ points, |p.1| ≤ 90) :
    0 ≤ calculatePolygonArea points ∧
      calculatePolygonArea points.reverse = calculatePolygonArea points := by
  constructor
  · unfold calculatePolygonArea
    split
    · exact le_refl 0
    · next hlen =>
      dsimp only
      have hpos : 0 < points.length := by omega
      have hcos := conversion_cos_nonneg points hpos h
      have h1 : (0 : ℝ) ≤ |shoelaceSum points| * 0.5 := by positivity
      have h2 : (0 : ℝ) ≤ 111320 * (111320 * Real.cos (avgLat points * Real.pi / 180)) / 1000000 := by
        apply div_nonneg _ (by norm_num)
        exact mul_nonneg (by norm_num) (mul_nonneg (by norm_num) hcos)
      exact mul_nonneg h1 h2
  · unfold calculatePolygonArea
    rw [List.length_reverse]
    by_cases hlen : points.length < 3
    · rw [if_pos hlen, if_pos hlen]
    · rw [if_neg hlen, if_neg hlen]
      dsimp only
      rw [shoelaceSum_reverse, abs_neg, avgLat_reverse]

/-- Witness for C8 at the concrete triangle `[[0,0],[0,1],[1,1]]`. -/
theorem area_nonneg_and_reverse_invariant_witness :
    0 ≤ calculatePolygonArea [((0 : ℝ), 0), (0, 1), (1, 1)] ∧
      calculatePolygonArea [((0 : ℝ), 0), (0, 1), (1, 1)].reverse =
        calculatePolygonArea [((0 : ℝ), 0), (0, 1), (1, 1)] :=
  area_nonneg_and_reverse_invariant [((0 : ℝ), 0), (0, 1), (1, 1)]
    (by intro p hp; fin_cases hp <;> norm_num)

end Geometry

namespace Geometry

/-- Evaluate one Haversine step once its `a`-value is known. -/
theorem haversineStep_eval (k : ℝ) (p q : Point) (a : ℝ)
    (ha : Real.sin ((q.1 * Real.pi / 180 - p.1 * Real.pi / 180) * 0.5) *
        Real.sin ((q.1 * Real.pi / 180 - p.1 * Real.pi / 180) * 0.5) +
        k * Real.cos (q.1 * Real.pi / 180) *
          Real.sin ((q.2 - p.2) * Real.pi / 180 * 0.5) *
          Real.sin ((q.2 - p.2) * Real.pi / 180 * 0.5) = a) :
    haversineStep k p q = 6371000 * (2 * atan2 (Real.sqrt a) (Real.sqrt (1 - a))) := by
  unfold haversineStep
  dsimp only
  rw [ha]

theorem stepA1 : haversineStep 1 ((0 : ℝ), (0 : ℝ)) ((60 : ℝ), (90 : ℝ)) =
    6371000 * (2 * atan2 (Real.sqrt (1/2)) (Real.sqrt (1/2))) := by
  rw [haversineStep_eval 1 ((0 : ℝ), (0 : ℝ)) ((60 : ℝ), (90 : ℝ)) (1/2) (by
    dsimp only
    rw [show ((60 : ℝ) * Real.pi / 180 - 0 * Real.pi / 180) * 0.5 = Real.pi / 6 by ring,
      show ((90 : ℝ) - 0) * Real.pi / 180 * 0.5 = Real.pi / 4 by ring,
      show (60 : ℝ) * Real.pi / 180 = Real.pi / 3 by ring,
      Real.sin_pi_div_six, Real.cos_pi_div_three, Real.sin_pi_div_four]
    have h2 := Real.mul_self_sqrt (by norm_num : (0 : ℝ) ≤ 2)
    linear_combination (1/8 : ℝ) * h2)]
  norm_num

theorem stepA2 : haversineStep 1 ((60 : ℝ), (90 : ℝ)) ((0 : ℝ), (90 : ℝ)) =
    6371000 * (2 * atan2 (Real.sqrt (1/4)) (Real.sqrt (3/4))) := by
  rw [haversineStep_eval 1 ((60 : ℝ), (90 : ℝ)) ((0 : ℝ), (90 : ℝ)) (1/4) (by
    dsimp only
    rw [show ((0 : ℝ) * Real.pi / 180 - 60 * Real.pi / 180) * 0.5 = -(Real.pi / 6) by ring,
      show ((90 : ℝ) - 90) * Real.pi / 180 * 0.5 = 0 by ring,
      show (0 : ℝ) * Real.pi / 180 = 0 by ring,
      Real.sin_neg, Real.sin_pi_div_six, Real.cos_zero, Real.sin_zero]
    norm_num)]
  norm_num

theorem stepA3 : haversineStep 1 ((0 : ℝ), (90 : ℝ)) ((0 : ℝ), (0 : ℝ)) =
    6371000 * (2 * atan2 (Real.sqrt (1/2)) (Real.sqrt (1/2))) := by
  rw [haversineStep_eval 1 ((0 : ℝ), (90 : ℝ)) ((0 : ℝ), (0 : ℝ)) (1/2) (by
    dsimp only
    rw [show ((0 : ℝ) * Real.pi / 180 - 0 * Real.pi / 180) * 0.5 = 0 by ring,
      show ((0 : ℝ) - 90) * Real.pi / 180 * 0.5 = -(Real.pi / 4) by ring,
      show (0 : ℝ) * Real.pi / 180 = 0 by ring,
      Real.sin_zero, Real.sin_neg, Real.sin_pi_div_four, Real.cos_zero]
    have h2 := Real.mul_self_sqrt (by norm_num : (0 : ℝ) ≤ 2)
    linear_combination (1/4 : ℝ) * h2)]
  norm_num

theorem stepB1 : haversineStep (1/2) ((60 : ℝ), (90 : ℝ)) ((0 : ℝ), (90 : ℝ)) =
    6371000 * (2 * atan2 (Real.sqrt (1/4)) (Real.sqrt (3/4))) := by
  rw [haversineStep_eval (1/2) ((60 : ℝ), (90 : ℝ)) ((0 : ℝ), (90 : ℝ)) (1/4) (by
    dsimp only
    rw [show ((0 : ℝ) * Real.pi / 180 - 60 * Real.pi / 180) * 0.5 = -(Real.pi / 6) by ring,
      show ((90 : ℝ) - 90) * Real.pi / 180 * 0.5 = 0 by ring,
      show (0 : ℝ) * Real.pi / 180 = 0 by ring,
      Real.sin_neg, Real.sin_pi_div_six, Real.cos_zero, Real.sin_zero]
    norm_num)]
  norm_num

theorem stepB2 : haversineStep (1/2) ((0 : ℝ), (90 : ℝ)) ((0 : ℝ), (0 : ℝ)) =
    6371000 * (2 * atan2 (Real.sqrt (1/4)) (Real.sqrt (3/4))) := by
  rw [haversineStep_eval (1/2) ((0 : ℝ), (90 : ℝ)) ((0 : ℝ), (0 : ℝ)) (1/4) (by
    dsimp only
    rw [show ((0 : ℝ) * Real.pi / 180 - 0 * Real.pi / 180) * 0.5 = 0 by ring,
      show ((0 : ℝ) - 90) * Real.pi / 180 * 0.5 = -(Real.pi / 4) by ring,
      show (0 : ℝ) * Real.pi / 180 = 0 by ring,
      Real.sin_zero, Real.sin_neg, Real.sin_pi_div_four, Real.cos_zero]
    have h2 := Real.mul_self_sqrt (by norm_num : (0 : ℝ) ≤ 2)
    linear_combination (1/8 : ℝ) * h2)]
  norm_num

theorem stepB3 : haversineStep (1/2) ((0 : ℝ), (0 : ℝ)) ((60 : ℝ), (90 : ℝ)) =
    6371000 * (2 * atan2 (Real.sqrt (3/8)) (Real.sqrt (5/8))) := by
  rw [haversineStep_eval (1/2) ((0 : ℝ), (0 : ℝ)) ((60 : ℝ), (90 : ℝ)) (3/8) (by
    dsimp only
    rw [show ((60 : ℝ) * Real.pi / 180 - 0 * Real.pi / 180) * 0.5 = Real.pi / 6 by ring,
      show ((90 : ℝ) - 0) * Real.pi / 180 * 0.5 = Real.pi / 4 by ring,
      show (60 : ℝ) * Real.pi / 180 = Real.pi / 3 by ring,
      Real.sin_pi_div_six, Real.cos_pi_div_three, Real.sin_pi_div_four]
    have h2 := Real.mul_self_sqrt (by norm_num : (0 : ℝ) ≤ 2)
    linear_combination (1/16 : ℝ) * h2)]
  norm_num

end Geometry

namespace Geometry

theorem perimOpt_triangle :
    calculatePolygonPerimeterOpt [((0 : ℝ), 0), (60, 90), (0, 90)] =
      (6371000 * (2 * atan2 (Real.sqrt (1/2)) (Real.sqrt (1/2))) +
        6371000 * (2 * atan2 (Real.sqrt (1/4)) (Real.sqrt (3/4))) +
        6371000 * (2 * atan2 (Real.sqrt (1/2)) (Real.sqrt (1/2)))) * 0.001 := by
  unfold calculatePolygonPerimeterOpt
  rw [if_neg (by norm_num)]
  dsimp only [List.headI, List.length_cons, List.length_nil]
  rw [show (0 : ℝ) * Real.pi / 180 = 0 by ring, Real.cos_zero]
  rw [show 0 + 1 + 1 + 1 = 3 from rfl]
  rw [Finset.sum_range_succ, Finset.sum_range_succ, Finset.sum_range_one]
  show (haversineStep 1 ((0 : ℝ), (0 : ℝ)) ((60 : ℝ), (90 : ℝ)) +
      haversineStep 1 ((60 : ℝ), (90 : ℝ)) ((0 : ℝ), (90 : ℝ)) +
      haversineStep 1 ((0 : ℝ), (90 : ℝ)) ((0 : ℝ), (0 : ℝ))) * 0.001 = _
  rw [stepA1, stepA2, stepA3]

theorem perimOpt_triangle_rotated :
    calculatePolygonPerimeterOpt [((60 : ℝ), 90), (0, 90), (0, 0)] =
      (6371000 * (2 * atan2 (Real.sqrt (1/4)) (Real.sqrt (3/4))) +
        6371000 * (2 * atan2 (Real.sqrt (1/4)) (Real.sqrt (3/4))) +
        6371000 * (2 * atan2 (Real.sqrt (3/8)) (Real.sqrt (5/8)))) * 0.001 := by
  unfold calculatePolygonPerimeterOpt
  rw [if_neg (by norm_num)]
  dsimp only [List.headI, List.length_cons, List.length_nil]
  rw [show (60 : ℝ) * Real.pi / 180 = Real.pi / 3 by ring, Real.cos_pi_div_three]
  rw [show 0 + 1 + 1 + 1 = 3 from rfl]
  rw [Finset.sum_range_succ, Finset.sum_range_succ, Finset.sum_range_one]
  show (haversineStep (1/2) ((60 : ℝ), (90 : ℝ)) ((0 : ℝ), (90 : ℝ)) +
      haversineStep (1/2) ((0 : ℝ), (90 : ℝ)) ((0 : ℝ), (0 : ℝ)) +
      haversineStep (1/2) ((0 : ℝ), (0 : ℝ)) ((60 : ℝ), (90 : ℝ))) * 0.001 = _
  rw [stepB1, stepB2, stepB3]

theorem atan2_sqrt_half : atan2 (Real.sqrt (1/2)) (Real.sqrt (1/2)) = Real.pi / 4 := by
  unfold atan2
  rw [if_pos (Real.sqrt_pos.mpr (by norm_num : (0 : ℝ) < 1/2))]
  rw [div_self (ne_of_gt (Real.sqrt_pos.mpr (by norm_num : (0 : ℝ) < 1/2)))]
  exact Real.arctan_one

theorem atan2_quarter_lt : atan2 (Real.sqrt (1/4)) (Real.sqrt (3/4)) < Real.pi / 4 := by
  unfold atan2
  rw [if_pos (Real.sqrt_pos.mpr (by norm_num : (0 : ℝ) < 3/4))]
  rw [← Real.sqrt_div (by norm_num : (0 : ℝ) ≤ 1/4)]
  rw [show (1/4 : ℝ) / (3/4) = 1/3 by norm_num]
  have h13 : Real.sqrt (1/3) < 1 := by
    have h := Real.sqrt_lt_sqrt (by norm_num : (0 : ℝ) ≤ 1/3) (by norm_num : (1/3 : ℝ) < 1)
    rwa [Real.sqrt_one] at h
  calc Real.arctan (Real.sqrt (1/3)) < Real.arctan 1 := Real.arctan_strictMono h13
    _ = Real.pi / 4 := Real.arctan_one

theorem atan2_three_eighths_lt : atan2 (Real.sqrt (3/8)) (Real.sqrt (5/8)) < Real.pi / 4 := by
  unfold atan2
  rw [if_pos (Real.sqrt_pos.mpr (by norm_num : (0 : ℝ) < 5/8))]
  rw [← Real.sqrt_div (by norm_num : (0 : ℝ) ≤ 3/8)]
  rw [show (3/8 : ℝ) / (5/8) = 3/5 by norm_num]
  have h35 : Real.sqrt (3/5) < 1 := by
    have h := Real.sqrt_lt_sqrt (by norm_num : (0 : ℝ) ≤ 3/5) (by norm_num : (3/5 : ℝ) < 1)
    rwa [Real.sqrt_one] at h
  calc Real.arctan (Real.sqrt (3/5)) < Real.arctan 1 := Real.arctan_strictMono h35
    _ = Real.pi / 4 := Real.arctan_one

/-- C3: the "optimized" perimeter of `src/unnamed/part_000`/`part_001` is
NOT invariant under cyclic rotation: on the triangle
`[[0,0],[60,90],[0,90]]` and its rotation `[[60,90],[0,90],[0,0]]` the
hoisted `cosLat1` factor changes (`cos 0 = 1` versus `cos 60° = 1/2`), and
the two perimeters differ.  The claim, and the plain per-segment Haversine
of `src/map-script.js`, require equality here. -/
theorem perimeterOpt_rotation_counterexample :
    calculatePolygonPerimeterOpt [((60 : ℝ), 90), (0, 90), (0, 0)] ≠
      calculatePolygonPerimeterOpt [((0 : ℝ), 0), (60, 90), (0, 90)] := by
  have hL := perimOpt_triangle
  have hL2 := perimOpt_triangle_rotated
  have hx := atan2_sqrt_half
  have ht := atan2_quarter_lt
  have hs := atan2_three_eighths_lt
  apply ne_of_lt
  rw [hL, hL2, hx]
  nlinarith [ht, hs, Real.pi_pos]

end Geometry

namespace Geometry

/-- A Haversine step is symmetric in its endpoints when `cosLat1` is taken
from the segment's own start, as `src/map-script.js` does. -/
theorem haversineStep_symm (p q : Point) :
    haversineStep (Real.cos (q.1 * Real.pi / 180)) q p =
      haversineStep (Real.cos (p.1 * Real.pi / 180)) p q := by
  unfold haversineStep
  dsimp only
  rw [show Real.sin ((p.1 * Real.pi / 180 - q.1 * Real.pi / 180) * 0.5) *
        Real.sin ((p.1 * Real.pi / 180 - q.1 * Real.pi / 180) * 0.5) +
        Real.cos (q.1 * Real.pi / 180) * Real.cos (p.1 * Real.pi / 180) *
          Real.sin ((p.2 - q.2) * Real.pi / 180 * 0.5) *
          Real.sin ((p.2 - q.2) * Real.pi / 180 * 0.5)
      = Real.sin ((q.1 * Real.pi / 180 - p.1 * Real.pi / 180) * 0.5) *
        Real.sin ((q.1 * Real.pi / 180 - p.1 * Real.pi / 180) * 0.5) +
        Real.cos (p.1 * Real.pi / 180) * Real.cos (q.1 * Real.pi / 180) *
          Real.sin ((q.2 - p.2) * Real.pi / 180 * 0.5) *
          Real.sin ((q.2 - p.2) * Real.pi / 180 * 0.5) from by
    rw [show (p.1 * Real.pi / 180 - q.1 * Real.pi / 180) * 0.5 =
          -((q.1 * Real.pi / 180 - p.1 * Real.pi / 180) * 0.5) by ring,
      show (p.2 - q.2) * Real.pi / 180 * 0.5 =
          -((q.2 - p.2) * Real.pi / 180 * 0.5) by ring,
      Real.sin_neg, Real.sin_neg]
    ring]

theorem getD_rotate_one (l : List Point) (i : ℕ) (h : i < l.length) :
    (l.rotate 1).getD i (0, 0) = l.getD ((i + 1) % l.length) (0, 0) := by
  rw [List.getD_eq_getElem?_getD, List.getD_eq_getElem?_getD, List.getElem?_rotate h]

/-- The per-segment Haversine perimeter of `src/map-script.js` is invariant
under rotating the vertex list by one position. -/
theorem perimeter_rotate_one (points : List Point) :
    calculatePolygonPerimeter (points.rotate 1) = calculatePolygonPerimeter points := by
  unfold calculatePolygonPerimeter
  rw [List.length_rotate]
  rcases Nat.eq_zero_or_pos points.length with h0 | hpos
  · simp [h0]
  · congr 1
    refine Finset.sum_nbij'
      (fun a => (a + 1) % points.length)
      (fun a => (a + (points.length - 1)) % points.length)
      (fun a ha => ?_) (fun a ha => ?_) (fun a ha => ?_) (fun a ha => ?_)
      (fun a ha => ?_)
    · simp only [Finset.mem_range] at ha ⊢
      exact Nat.mod_lt _ hpos
    · simp only [Finset.mem_range] at ha ⊢
      exact Nat.mod_lt _ hpos
    · simp only [Finset.mem_range] at ha
      dsimp only
      rw [Nat.mod_add_mod]
      have h2 : a + 1 + (points.length - 1) = a + points.length := by omega
      rw [h2, Nat.add_mod_right, Nat.mod_eq_of_lt ha]
    · simp only [Finset.mem_range] at ha
      dsimp only
      rw [Nat.mod_add_mod]
      have h2 : a + (points.length - 1) + 1 = a + points.length := by omega
      rw [h2, Nat.add_mod_right, Nat.mod_eq_of_lt ha]
    · simp only [Finset.mem_range] at ha
      have hmod : (a + 1) % points.length < points.length := Nat.mod_lt _ hpos
      rw [getD_rotate_one points a ha, getD_rotate_one points _ hmod, Nat.mod_add_mod]

/-- The per-segment Haversine perimeter of `src/map-script.js` is invariant
under every cyclic rotation of the vertex list. -/
theorem perimeter_rotate (points : List Point) (k : ℕ) :
    calculatePolygonPerimeter (points.rotate k) = calculatePolygonPerimeter points := by
  induction k with
  | zero => rw [List.rotate_zero]
  | succ k ih =>
    have h := perimeter_rotate_one (points.rotate k)
    rw [List.rotate_rotate] at h
    rw [h, ih]

/-- The per-segment Haversine perimeter of `src/map-script.js` is invariant
under reversal of the vertex list. -/
theorem perimeter_reverse (points : List Point) :
    calculatePolygonPerimeter points.reverse = calculatePolygonPerimeter points := by
  unfold calculatePolygonPerimeter
  rw [List.length_reverse]
  rcases Nat.eq_zero_or_pos points.length with h0 | hpos
  · simp [h0]
  · congr 1
    refine Finset.sum_nbij'
      (fun a => points.length - 1 - (a + 1) % points.length)
      (fun a => points.length - 1 - (a + 1) % points.length)
      (fun a ha => ?_) (fun a ha => ?_) (fun a ha => ?_) (fun a ha => ?_)
      (fun a ha => ?_)
    · simp only [Finset.mem_range] at ha ⊢
      have hmod : (a + 1) % points.length < points.length := Nat.mod_lt _ hpos
      omega
    · simp only [Finset.mem_range] at ha ⊢
      have hmod : (a + 1) % points.length < points.length := Nat.mod_lt _ hpos
      omega
    · simp only [Finset.mem_range] at ha
      dsimp only
      rw [cyclic_succ_reversed points.length a hpos ha]
      omega
    · simp only [Finset.mem_range] at ha
      dsimp only
      rw [cyclic_succ_reversed points.length a hpos ha]
      omega
    · simp only [Finset.mem_range] at ha
      have hmod : (a + 1) % points.length < points.length := Nat.mod_lt _ hpos
      rw [getD_reverse points a ha, getD_reverse points _ hmod,
        cyclic_succ_reversed points.length a hpos ha]
      exact haversineStep_symm _ _

end Geometry
